import Mathlib

/-!
Shallow embedding of `src/process_pdfs.py` (PDF extraction + structure analysis).

Strings are modelled as `List Char` over ASCII text; the Python string
predicates `str.isupper` / `str.istitle` and the splitting/stripping methods
are embedded following CPython semantics restricted to ASCII, where a
character is cased exactly when it is an ASCII letter.

External, fallible library calls (pdfplumber, PyPDF2) are modelled as black
boxes: an input value either carries the pages the library would return or
marks that the call raised an exception, which the source script catches.
Wall-clock fields (`processing_timestamp`, `processing_time`) and the
floating-point page `width`/`height` (never inspected by the analyzer) are
omitted from the model.
-/

/-- Python whitespace characters as used by `str.split` / `str.strip`. -/
def pyIsSpace (c : Char) : Bool :=
  c = ' ' || c = '\t' || c = '\n' || c = '\r' || c = '\x0b' || c = '\x0c'

/-- Helper for `pySplit`: accumulates the current (reversed) token. -/
def pySplitAux : List Char → List Char → List (List Char)
  | [], cur => if cur = [] then [] else [cur.reverse]
  | c :: rest, cur =>
    if pyIsSpace c then
      if cur = [] then pySplitAux rest []
      else cur.reverse :: pySplitAux rest []
    else pySplitAux rest (c :: cur)

/-- Python `s.split()`: split on runs of whitespace, dropping empty tokens. -/
def pySplit (s : List Char) : List (List Char) :=
  pySplitAux s []

/-- Python `s.strip()`: drop leading and trailing whitespace. -/
def pyStrip (s : List Char) : List Char :=
  ((s.dropWhile pyIsSpace).reverse.dropWhile pyIsSpace).reverse

/-- Python `s.split('\n')`: split on every newline, keeping empty pieces. -/
def pySplitNl : List Char → List (List Char)
  | [] => [[]]
  | c :: rest =>
    if c = '\n' then [] :: pySplitNl rest
    else
      match pySplitNl rest with
      | [] => [[c]]
      | l :: ls => (c :: l) :: ls

/-- A character is cased (for ASCII) iff it is a letter. -/
def pyCased (c : Char) : Bool :=
  c.isUpper || c.isLower

/-- Python `s.isupper()`: at least one cased character and no lower-case one. -/
def pyIsUpper (s : List Char) : Bool :=
  s.any pyCased && s.all (fun c => !c.isLower)

/-- CPython `str.istitle` scan: first flag is whether the previous character
was cased, second whether any cased character has been seen. -/
def pyIsTitleAux : List Char → Bool → Bool → Bool
  | [], _, cased => cased
  | c :: rest, prevCased, cased =>
    if c.isUpper then
      if prevCased then false else pyIsTitleAux rest true true
    else if c.isLower then
      if !prevCased then false else pyIsTitleAux rest true true
    else pyIsTitleAux rest false cased

/-- Python `s.istitle()`: upper-case letters only follow uncased characters,
lower-case letters only follow cased ones, and at least one cased character. -/
def pyIsTitle (s : List Char) : Bool :=
  pyIsTitleAux s false false

/-- A table grid: rows of cell strings, as returned by `page.extract_tables()`. -/
def Table : Type :=
  List (List (List Char))

instance : DecidableEq Table := by
  unfold Table
  infer_instance

/-- One page of the normalized record (`page_data` in the source); the
floating-point `width`/`height` fields are omitted. -/
structure PageRecord where
  page_number : Nat
  text : List Char
  tables : List Table
  deriving DecidableEq

/-- The normalized record returned by the extraction adapter. -/
structure DocumentRecord where
  total_pages : Nat
  full_text : List Char
  pages : List PageRecord
  deriving DecidableEq

/-- The `document_stats` object of the analyzer output. -/
structure DocumentStats where
  total_pages : Nat
  word_count : Nat
  character_count : Nat
  paragraph_count : Nat
  table_count : Nat
  deriving DecidableEq

/-- The `content_structure` object of the analyzer output. -/
structure ContentStructure where
  headings : List (List Char)
  paragraphs : List (List Char)
  tables : List Table
  deriving DecidableEq

/-- The `metadata` object of the analyzer output (`processing_timestamp`,
a wall-clock read, is omitted from the model). -/
structure Metadata where
  extraction_method : String
  deriving DecidableEq

/-- The analyzer output (`analyze_document_structure` return value). -/
structure StructureSummary where
  document_stats : DocumentStats
  content_structure : ContentStructure
  metadata : Metadata
  deriving DecidableEq

/-- The heading test of `analyze_document_structure`, line 110 of the source:
`len(words_in_line) <= 10 and (line.isupper() or line.istitle())`. -/
def isHeadingLine (line : List Char) : Bool :=
  decide ((pySplit line).length ≤ 10) && (pyIsUpper line || pyIsTitle line)

/-- The paragraph test of `analyze_document_structure`, line 112 of the
source: `len(words_in_line) > 10`. -/
def isParagraphLine (line : List Char) : Bool :=
  decide (10 < (pySplit line).length)

/-- One iteration of the classification loop (source lines 106-113): strip
the line, skip it when empty, append to the headings on the heading test,
otherwise append to the paragraphs on the paragraph test. -/
def classify_step (acc : List (List Char) × List (List Char)) (rawLine : List Char) :
    List (List Char) × List (List Char) :=
  if pyStrip rawLine = [] then acc
  else if isHeadingLine (pyStrip rawLine) then (acc.1 ++ [pyStrip rawLine], acc.2)
  else if isParagraphLine (pyStrip rawLine) then (acc.1, acc.2 ++ [pyStrip rawLine])
  else acc

/-- The classification loop over all lines, starting from empty `headings`
and `paragraphs` accumulators. -/
def classify_lines (lines : List (List Char)) : List (List Char) × List (List Char) :=
  List.foldl classify_step ([], []) lines

/-- The table-collection loop (source lines 116-119): extend `all_tables`
with a page's tables whenever that list is truthy, i.e. non-empty. -/
def collect_tables (pages : List PageRecord) : List Table :=
  List.foldl (fun acc p => if p.tables = [] then acc else acc ++ p.tables) [] pages

/-- `analyze_document_structure` (source lines 71-138): on empty `full_text`
return the all-zero summary tagged `"failed"`; otherwise compute word and
character counts, classify the stripped lines into headings and paragraphs,
collect all tables, and return the summary with the first 10 headings and
first 5 paragraphs, tagged `"pdfplumber"`. -/
def analyze_document_structure (pdf_data : DocumentRecord) : StructureSummary :=
  if pdf_data.full_text = [] then
    { document_stats :=
        { total_pages := 0, word_count := 0, character_count := 0,
          paragraph_count := 0, table_count := 0 },
      content_structure := { headings := [], paragraphs := [], tables := [] },
      metadata := { extraction_method := "failed" } }
  else
    { document_stats :=
        { total_pages := pdf_data.total_pages,
          word_count := (pySplit pdf_data.full_text).length,
          character_count := pdf_data.full_text.length,
          paragraph_count := (classify_lines (pySplitNl pdf_data.full_text)).2.length,
          table_count := (collect_tables pdf_data.pages).length },
      content_structure :=
        { headings := (classify_lines (pySplitNl pdf_data.full_text)).1.take 10,
          paragraphs := (classify_lines (pySplitNl pdf_data.full_text)).2.take 5,
          tables := collect_tables pdf_data.pages },
      metadata := { extraction_method := "pdfplumber" } }

/-- What the primary backend (pdfplumber) reports for one page: the result
of `page.extract_text()` (`none` models Python `None`) and of
`page.extract_tables()`. -/
structure RawPage where
  extract_text : Option (List Char)
  extract_tables : List Table
  deriving DecidableEq

/-- A run of the primary backend on a PDF: either it raises somewhere
(caught by the source's `except`), or it yields the list of pages. -/
inductive PrimaryResult where
  | exn : PrimaryResult
  | ok : List RawPage → PrimaryResult
  deriving DecidableEq

/-- The page loop of `extract_text_with_pdfplumber` (source lines 46-60),
numbering pages from `page_num`: builds `pages_data` and `total_text`, each
page contributing `page.extract_text() or ""` plus a newline to the text and
`tables if tables else []` to its record. -/
def buildPages : Nat → List RawPage → List PageRecord × List Char
  | _, [] => ([], [])
  | page_num, pg :: rest =>
    let r := buildPages (page_num + 1) rest
    ({ page_number := page_num, text := pg.extract_text.getD [],
       tables := if pg.extract_tables = [] then [] else pg.extract_tables } :: r.1,
     pg.extract_text.getD [] ++ '\n' :: r.2)

/-- `extract_text_with_pdfplumber` (source lines 39-69): on success return
the page count, concatenated text and per-page records; on any exception
return the empty sentinel `{total_pages := 0, full_text := "", pages := []}`. -/
def extract_text_with_pdfplumber : PrimaryResult → DocumentRecord
  | .exn => { total_pages := 0, full_text := [], pages := [] }
  | .ok rawPages =>
    { total_pages := rawPages.length,
      full_text := (buildPages 1 rawPages).2,
      pages := (buildPages 1 rawPages).1 }

/-- A run of the fallback backend (PyPDF2): either it raises somewhere, or
it yields each page's `extract_text()` string. -/
inductive FallbackResult where
  | exn : FallbackResult
  | ok : List (List Char) → FallbackResult
  deriving DecidableEq

/-- The page loop of `extract_text_with_pypdf2` (source lines 32-33):
`text += page.extract_text() + "\n"`. -/
def concatFallback : List (List Char) → List Char
  | [] => []
  | t :: rest => t ++ '\n' :: concatFallback rest

/-- `extract_text_with_pypdf2` (source lines 26-37): concatenate every
page's text plus a newline; on any exception return the empty string. -/
def extract_text_with_pypdf2 : FallbackResult → List Char
  | .exn => []
  | .ok pageTexts => concatFallback pageTexts

/-- The extraction stage of `process_single_pdf` (source lines 147-157):
run the primary backend; if the resulting `full_text` is falsy (empty), call
the fallback and synthesize a one-page record from its text. The second
component counts fallback invocations (the call-count stub of the spec). -/
def process_single_pdf_extraction (primary : PrimaryResult) (fallback : FallbackResult) :
    DocumentRecord × Nat :=
  if (extract_text_with_pdfplumber primary).full_text = [] then
    ({ total_pages := 1,
       full_text := extract_text_with_pypdf2 fallback,
       pages := [{ page_number := 1, text := extract_text_with_pypdf2 fallback,
                   tables := [] }] }, 1)
  else (extract_text_with_pdfplumber primary, 0)

/-- Per-line heading selector: the stripped line when it is non-empty and
passes the heading test, otherwise nothing.  Characterizes which lines the
classification loop appends to `headings`. -/
def headSel (rawLine : List Char) : Option (List Char) :=
  if pyStrip rawLine = [] then none
  else if isHeadingLine (pyStrip rawLine) then some (pyStrip rawLine)
  else none

/-- Per-line paragraph selector: the stripped line when it is non-empty and
has more than 10 tokens, otherwise nothing.  Characterizes which lines the
classification loop appends to `paragraphs`. -/
def paraSel (rawLine : List Char) : Option (List Char) :=
  if pyStrip rawLine = [] then none
  else if isParagraphLine (pyStrip rawLine) then some (pyStrip rawLine)
  else none

/-- Title case in the words of the spec: every whitespace-separated word
starts with an upper-case letter and the rest of the word is lower-case. -/
def specTitleCase (line : List Char) : Bool :=
  (pySplit line).all fun w =>
    match w with
    | [] => true
    | c :: rest => c.isUpper && rest.all Char.isLower

/-- All-caps in the words of the spec: the line bears at least one
alphabetic character and every alphabetic character in it is upper-case. -/
def specAllCapsAlphaBearing (line : List Char) : Bool :=
  line.any Char.isAlpha && line.all fun c => !c.isAlpha || c.isUpper

theorem heading_not_paragraph (line : List Char) (h : isHeadingLine line = true) :
    isParagraphLine line = false := by
  simp only [isHeadingLine, Bool.and_eq_true, decide_eq_true_eq] at h
  simp only [isParagraphLine, decide_eq_false_iff_not]
  omega

theorem classify_foldl (lines : List (List Char)) (hs ps : List (List Char)) :
    List.foldl classify_step (hs, ps) lines =
      (hs ++ lines.filterMap headSel, ps ++ lines.filterMap paraSel) := by
  induction lines generalizing hs ps with
  | nil => simp
  | cons l rest ih =>
    by_cases h0 : pyStrip l = []
    · simp [classify_step, headSel, paraSel, h0, ih]
    · by_cases h1 : isHeadingLine (pyStrip l) = true
      · have h2 := heading_not_paragraph _ h1
        simp [classify_step, headSel, paraSel, h0, h1, h2, ih]
      · by_cases h2 : isParagraphLine (pyStrip l) = true
        · simp [classify_step, headSel, paraSel, h0, h1, h2, ih]
        · simp [classify_step, headSel, paraSel, h0, h1, h2, ih]

theorem classify_lines_eq (lines : List (List Char)) :
    classify_lines lines = (lines.filterMap headSel, lines.filterMap paraSel) := by
  simpa using classify_foldl lines [] []

theorem dropWhile_eq_nil_of_all (p : Char → Bool) (s : List Char)
    (h : s.all p = true) : s.dropWhile p = [] := by
  induction s with
  | nil => rfl
  | cons c rest ih =>
    simp only [List.all_cons, Bool.and_eq_true] at h
    simp [List.dropWhile_cons, h.1, ih h.2]

theorem pyStrip_all_space (s : List Char) (h : s.all pyIsSpace = true) :
    pyStrip s = [] := by
  simp [pyStrip, dropWhile_eq_nil_of_all pyIsSpace s h]

theorem pySplitAux_all_space (s : List Char) (h : s.all pyIsSpace = true) :
    pySplitAux s [] = [] := by
  induction s with
  | nil => rfl
  | cons c rest ih =>
    simp only [List.all_cons, Bool.and_eq_true] at h
    simp [pySplitAux, h.1, ih h.2]

theorem pySplit_all_space (s : List Char) (h : s.all pyIsSpace = true) :
    pySplit s = [] :=
  pySplitAux_all_space s h

theorem pySplitNl_all_space (s : List Char) (h : s.all pyIsSpace = true) :
    ∀ l ∈ pySplitNl s, l.all pyIsSpace = true := by
  induction s with
  | nil =>
    intro l hl
    simp only [pySplitNl, List.mem_singleton] at hl
    simp [hl]
  | cons c rest ih =>
    simp only [List.all_cons, Bool.and_eq_true] at h
    intro l hl
    by_cases hc : c = '\n'
    · simp only [pySplitNl, hc, if_pos rfl] at hl
      rcases List.mem_cons.mp hl with h1 | h1
      · simp [h1]
      · exact ih h.2 l h1
    · simp only [pySplitNl, if_neg hc] at hl
      rcases hrest : pySplitNl rest with _ | ⟨l0, ls⟩
      · rw [hrest] at hl
        simp only [List.mem_singleton] at hl
        simp [hl, List.all_cons, h.1]
      · rw [hrest] at hl
        rcases List.mem_cons.mp hl with h1 | h1
        · subst h1
          simp only [List.all_cons, Bool.and_eq_true]
          refine ⟨h.1, ?_⟩
          have := ih h.2 l0
          rw [hrest] at this
          exact this (List.mem_cons_self l0 ls)
        · have := ih h.2 l
          rw [hrest] at this
          exact this (List.mem_cons_of_mem l0 h1)

theorem buildPages_text_eq_nil (k : Nat) (pgs : List RawPage)
    (h : (buildPages k pgs).2 = []) : pgs = [] := by
  cases pgs with
  | nil => rfl
  | cons pg rest =>
    exfalso
    simp only [buildPages] at h
    rcases List.append_eq_nil.mp h with ⟨_, h2⟩
    exact List.cons_ne_nil _ _ h2

theorem pdfplumber_sentinel (p : PrimaryResult)
    (h : (extract_text_with_pdfplumber p).full_text = []) :
    (extract_text_with_pdfplumber p).total_pages = 0 ∧
      (extract_text_with_pdfplumber p).pages = [] := by
  cases p with
  | exn => exact ⟨rfl, rfl⟩
  | ok rawPages =>
    simp only [extract_text_with_pdfplumber] at h ⊢
    have hnil := buildPages_text_eq_nil 1 rawPages h
    subst hnil
    exact ⟨rfl, rfl⟩

theorem buildPages_text_empty_pages (k : Nat) (pgs : List RawPage)
    (h : ∀ pg ∈ pgs, pg.extract_text.getD [] = []) :
    (buildPages k pgs).2 = List.replicate pgs.length '\n' := by
  induction pgs generalizing k with
  | nil => rfl
  | cons pg rest ih =>
    simp only [buildPages, List.length_cons, List.replicate_succ]
    rw [h pg (List.mem_cons_self pg rest),
      ih (k + 1) fun q hq => h q (List.mem_cons_of_mem pg hq)]
    rfl

theorem collect_tables_foldl (pages : List PageRecord) (acc : List Table) :
    List.foldl (fun a p => if p.tables = [] then a else a ++ p.tables) acc pages =
      acc ++ (pages.map PageRecord.tables).flatten := by
  induction pages generalizing acc with
  | nil => simp
  | cons p rest ih =>
    by_cases h : p.tables = [] <;>
      simp [h, ih, List.append_assoc]

theorem collect_tables_eq (pages : List PageRecord) :
    collect_tables pages = (pages.map PageRecord.tables).flatten := by
  simpa using collect_tables_foldl pages []

/-- C1 (counterexample): the stripped, non-empty line `"Hello 123"` has at
most 10 tokens and is neither entirely upper-case alphabetic-bearing nor
title-case in the claim's sense (its word `"123"` does not start with an
upper-case letter), so by the claim it should appear in neither list; yet
the analyzer classifies it as a heading, because Python `istitle` ignores
the uncased word `"123"`. -/
theorem C1_counterexample :
    pyStrip ("Hello 123".toList) = "Hello 123".toList ∧
    ("Hello 123".toList ≠ []) ∧
    (pySplit ("Hello 123".toList)).length ≤ 10 ∧
    specAllCapsAlphaBearing ("Hello 123".toList) = false ∧
    specTitleCase ("Hello 123".toList) = false ∧
    (analyze_document_structure
      { total_pages := 1, full_text := "Hello 123\n".toList,
        pages := [{ page_number := 1, text := "Hello 123".toList,
                    tables := [] }] }).content_structure.headings
      = ["Hello 123".toList] := by
  decide

/-- C1 (amended): for every line of the input, the classification loop
marks the stripped line as a heading candidate iff it is non-empty, has at
most 10 whitespace-separated tokens, and satisfies Python `isupper` (at
least one letter, no lower-case letter) or Python `istitle` (at least one
letter; upper-case letters only after uncased characters, lower-case
letters only after cased ones); it marks it as a paragraph candidate iff it
is non-empty and has more than 10 tokens; all other lines are discarded.
The two candidate sequences are collected in line order. -/
theorem C1_classification (lines : List (List Char)) :
    classify_lines lines =
      (lines.filterMap fun rawLine =>
        if pyStrip rawLine = [] then none
        else if decide ((pySplit (pyStrip rawLine)).length ≤ 10) &&
            (pyIsUpper (pyStrip rawLine) || pyIsTitle (pyStrip rawLine)) then
          some (pyStrip rawLine)
        else none,
       lines.filterMap fun rawLine =>
        if pyStrip rawLine = [] then none
        else if decide (10 < (pySplit (pyStrip rawLine)).length) then
          some (pyStrip rawLine)
        else none) :=
  classify_lines_eq lines

/-- C2: on a DocumentRecord with empty `full_text`, the analyzer returns
the all-zero statistics, empty headings, paragraphs and tables, and the
extraction method `"failed"`. -/
theorem C2_empty_full_text (d : DocumentRecord) (h : d.full_text = []) :
    analyze_document_structure d =
      { document_stats :=
          { total_pages := 0, word_count := 0, character_count := 0,
            paragraph_count := 0, table_count := 0 },
        content_structure := { headings := [], paragraphs := [], tables := [] },
        metadata := { extraction_method := "failed" } } := by
  simp [analyze_document_structure, h]

/-- C2 witness: the empty-sentinel record evaluates to the failed summary. -/
theorem C2_witness :
    analyze_document_structure { total_pages := 0, full_text := [], pages := [] } =
      { document_stats :=
          { total_pages := 0, word_count := 0, character_count := 0,
            paragraph_count := 0, table_count := 0 },
        content_structure := { headings := [], paragraphs := [], tables := [] },
        metadata := { extraction_method := "failed" } } :=
  C2_empty_full_text { total_pages := 0, full_text := [], pages := [] } rfl

/-- C5: the analyzer's headings are the first 10 heading-classified lines
in line order, its paragraphs the first 5 paragraph-classified lines, so
both lists are bounded by 10 and 5 respectively no matter how many
qualifying lines the text contains. -/
theorem C5_truncation (d : DocumentRecord) :
    (analyze_document_structure d).content_structure.headings =
      (classify_lines (pySplitNl d.full_text)).1.take 10 ∧
    (analyze_document_structure d).content_structure.paragraphs =
      (classify_lines (pySplitNl d.full_text)).2.take 5 ∧
    (analyze_document_structure d).content_structure.headings.length ≤ 10 ∧
    (analyze_document_structure d).content_structure.paragraphs.length ≤ 5 := by
  by_cases h : d.full_text = []
  · refine ⟨?_, ?_, ?_, ?_⟩ <;> simp [analyze_document_structure, h] <;> decide
  · have e1 : (analyze_document_structure d).content_structure.headings =
        (classify_lines (pySplitNl d.full_text)).1.take 10 := by
      simp [analyze_document_structure, h]
    have e2 : (analyze_document_structure d).content_structure.paragraphs =
        (classify_lines (pySplitNl d.full_text)).2.take 5 := by
      simp [analyze_document_structure, h]
    refine ⟨e1, e2, ?_, ?_⟩ <;> simp [e1, e2, List.length_take]

/-- C6: the reported `paragraph_count` is the full number of
paragraph-classified lines (the stripped non-empty lines with more than 10
tokens), not the size of the 5-element truncated sample. -/
theorem C6_paragraph_count_untruncated (d : DocumentRecord) :
    (analyze_document_structure d).document_stats.paragraph_count =
      ((pySplitNl d.full_text).filterMap paraSel).length := by
  by_cases h : d.full_text = []
  · simp [analyze_document_structure, h, paraSel, pySplitNl, pyStrip]
  · simp [analyze_document_structure, h, classify_lines_eq]

/-- C3 (counterexample): when both backends fail (primary raises, fallback
raises), the record handed to the Structure Analyzer has empty `full_text`
yet `total_pages = 1` and a non-empty `pages` list, so the claimed failure
sentinel invariant does not hold for the adapter output as handed to the
analyzer. -/
theorem C3_counterexample :
    (process_single_pdf_extraction PrimaryResult.exn FallbackResult.exn).1.full_text = [] ∧
    ¬((process_single_pdf_extraction PrimaryResult.exn FallbackResult.exn).1.total_pages = 0 ∧
      (process_single_pdf_extraction PrimaryResult.exn FallbackResult.exn).1.pages = []) := by
  decide

/-- C3 (amended): the primary path's own DocumentRecord satisfies the
failure sentinel (empty `full_text` implies `total_pages = 0` and empty
`pages`); but the record handed to the Structure Analyzer with empty
`full_text` — which only arises when the fallback also produced no text —
instead has `total_pages = 1` and a single PageRecord with page number 1,
empty text and no tables. -/
theorem C3_sentinel_amended (p : PrimaryResult) (f : FallbackResult) :
    ((extract_text_with_pdfplumber p).full_text = [] →
      (extract_text_with_pdfplumber p).total_pages = 0 ∧
        (extract_text_with_pdfplumber p).pages = []) ∧
    ((process_single_pdf_extraction p f).1.full_text = [] →
      (process_single_pdf_extraction p f).1.total_pages = 1 ∧
        (process_single_pdf_extraction p f).1.pages =
          [{ page_number := 1, text := [], tables := [] }]) := by
  refine ⟨pdfplumber_sentinel p, ?_⟩
  by_cases hp : (extract_text_with_pdfplumber p).full_text = []
  · have hrec : (process_single_pdf_extraction p f).1 =
        { total_pages := 1, full_text := extract_text_with_pypdf2 f,
          pages := [{ page_number := 1, text := extract_text_with_pypdf2 f,
                      tables := [] }] } := by
      simp [process_single_pdf_extraction, hp]
    intro h
    rw [hrec] at h
    simp only at h
    rw [hrec]
    simp [h]
  · have hrec : (process_single_pdf_extraction p f).1 =
        extract_text_with_pdfplumber p := by
      simp [process_single_pdf_extraction, hp]
    intro h
    rw [hrec] at h
    exact absurd h hp

/-- C3 witness: with both backends failing, the analyzer input record has
one synthetic page. -/
theorem C3_witness :
    (process_single_pdf_extraction PrimaryResult.exn FallbackResult.exn).1.total_pages = 1 ∧
    (process_single_pdf_extraction PrimaryResult.exn FallbackResult.exn).1.pages =
      [{ page_number := 1, text := [], tables := [] }] :=
  (C3_sentinel_amended PrimaryResult.exn FallbackResult.exn).2 rfl

/-- C4: the fallback is invoked (invocation count 1) exactly when the
primary path's `full_text` is empty, which includes the case where the
primary backend raised; a non-empty primary text means the fallback is
never called (count 0); and whenever the fallback runs, the synthesized
record has `total_pages = 1` and exactly one PageRecord with page number 1
and no tables, whatever pages the PDF really has. -/
theorem C4_fallback_trigger (p : PrimaryResult) (f : FallbackResult) :
    ((process_single_pdf_extraction p f).2 = 1 ↔
      (extract_text_with_pdfplumber p).full_text = []) ∧
    ((extract_text_with_pdfplumber p).full_text ≠ [] →
      (process_single_pdf_extraction p f).2 = 0) ∧
    ((process_single_pdf_extraction p f).2 = 1 →
      (process_single_pdf_extraction p f).1.total_pages = 1 ∧
      (process_single_pdf_extraction p f).1.pages =
        [{ page_number := 1, text := extract_text_with_pypdf2 f,
           tables := [] }]) := by
  by_cases hp : (extract_text_with_pdfplumber p).full_text = [] <;>
    simp [process_single_pdf_extraction, hp]

/-- C4 witness: a raising primary backend triggers exactly one fallback
call and yields the one-page synthetic record. -/
theorem C4_witness :
    (process_single_pdf_extraction PrimaryResult.exn (FallbackResult.ok [['a']])).2 = 1 ∧
    (process_single_pdf_extraction PrimaryResult.exn (FallbackResult.ok [['a']])).1.total_pages = 1 ∧
    (process_single_pdf_extraction PrimaryResult.exn (FallbackResult.ok [['a']])).1.pages =
      [{ page_number := 1,
         text := extract_text_with_pypdf2 (FallbackResult.ok [['a']]),
         tables := [] }] := by
  have h := C4_fallback_trigger PrimaryResult.exn (FallbackResult.ok [['a']])
  exact ⟨h.1.mpr rfl, (h.2.2 (h.1.mpr rfl)).1, (h.2.2 (h.1.mpr rfl)).2⟩

/-- C7: under the data-model invariant (a record with empty `full_text` has
no pages), the reported `table_count` is the total number of table grids
summed over all pages, and `content_structure.tables` is exactly the
concatenation of the pages' table grids in page order, untruncated. -/
theorem C7_tables (d : DocumentRecord) (h : d.full_text = [] → d.pages = []) :
    (analyze_document_structure d).document_stats.table_count =
      (d.pages.map fun p => p.tables.length).sum ∧
    (analyze_document_structure d).content_structure.tables =
      (d.pages.map PageRecord.tables).flatten := by
  by_cases he : d.full_text = []
  · have hp := h he
    simp [analyze_document_structure, he, hp]
  · constructor
    · simp [analyze_document_structure, he, collect_tables_eq,
        List.length_flatten, List.map_map, Function.comp_def]
    · simp [analyze_document_structure, he, collect_tables_eq]

/-- C7 witness: a one-page record with a single table grid reports
`table_count = 1` and returns that grid. -/
theorem C7_witness :
    (analyze_document_structure
      { total_pages := 1, full_text := ['x'],
        pages := [{ page_number := 1, text := ['x'],
                    tables := [[[['a']]]] }] }).document_stats.table_count = 1 ∧
    (analyze_document_structure
      { total_pages := 1, full_text := ['x'],
        pages := [{ page_number := 1, text := ['x'],
                    tables := [[[['a']]]] }] }).content_structure.tables = [[[['a']]]] := by
  have h := C7_tables
    { total_pages := 1, full_text := ['x'],
      pages := [{ page_number := 1, text := ['x'], tables := [[[['a']]]] }] }
    (by decide)
  exact ⟨by simpa using h.1, by simpa using h.2⟩

/-- C8: the extraction method tag is always `"pdfplumber"` or `"failed"`,
and it is `"pdfplumber"` exactly when `full_text` is non-empty; in
particular a record produced by a fallback invocation that yielded text is
still tagged `"pdfplumber"` by the analyzer. -/
theorem C8_extraction_method :
    (∀ d : DocumentRecord,
      ((analyze_document_structure d).metadata.extraction_method = "pdfplumber" ∨
        (analyze_document_structure d).metadata.extraction_method = "failed") ∧
      ((analyze_document_structure d).metadata.extraction_method = "pdfplumber" ↔
        d.full_text ≠ [])) ∧
    (∀ (p : PrimaryResult) (f : FallbackResult),
      (process_single_pdf_extraction p f).2 = 1 →
      (process_single_pdf_extraction p f).1.full_text ≠ [] →
      (analyze_document_structure
        (process_single_pdf_extraction p f).1).metadata.extraction_method = "pdfplumber") := by
  have main : ∀ d : DocumentRecord,
      ((analyze_document_structure d).metadata.extraction_method = "pdfplumber" ∨
        (analyze_document_structure d).metadata.extraction_method = "failed") ∧
      ((analyze_document_structure d).metadata.extraction_method = "pdfplumber" ↔
        d.full_text ≠ []) := by
    intro d
    by_cases h : d.full_text = [] <;> simp [analyze_document_structure, h]
  exact ⟨main, fun p f _ h2 => (main _).2.mpr h2⟩

/-- C8 witness: the empty record is tagged `"failed"`; a record obtained
through the fallback with non-empty text is tagged `"pdfplumber"`. -/
theorem C8_witness :
    (analyze_document_structure
      { total_pages := 0, full_text := [], pages := [] }).metadata.extraction_method = "failed" ∧
    (analyze_document_structure
      (process_single_pdf_extraction PrimaryResult.exn
        (FallbackResult.ok [['a']])).1).metadata.extraction_method = "pdfplumber" := by
  constructor
  · have h := C8_extraction_method.1 { total_pages := 0, full_text := [], pages := [] }
    rcases h.1 with h1 | h1
    · exact absurd (h.2.mp h1) (by simp)
    · exact h1
  · exact C8_extraction_method.2 PrimaryResult.exn (FallbackResult.ok [['a']])
      (by decide) (by decide)

/-- C9: neither extraction function propagates an exception: a raising
primary run yields the empty-sentinel DocumentRecord and a raising fallback
run yields the empty string. -/
theorem C9_exception_sentinels :
    extract_text_with_pdfplumber PrimaryResult.exn =
      { total_pages := 0, full_text := [], pages := [] } ∧
    extract_text_with_pypdf2 FallbackResult.exn = [] :=
  ⟨rfl, rfl⟩

/-- C10: a record whose non-empty `full_text` is all whitespace — which the
primary path produces whenever every page yields empty text, since it still
appends one newline per page — does not trigger the fallback, and the
analyzer takes its success branch: zero words, zero paragraphs, empty
headings and paragraphs, character count equal to the text length, and
method `"pdfplumber"` rather than the failed summary. -/
theorem C10_whitespace_only :
    (∀ d : DocumentRecord, d.full_text ≠ [] → d.full_text.all pyIsSpace = true →
      (analyze_document_structure d).document_stats.word_count = 0 ∧
      (analyze_document_structure d).document_stats.paragraph_count = 0 ∧
      (analyze_document_structure d).content_structure.headings = [] ∧
      (analyze_document_structure d).content_structure.paragraphs = [] ∧
      (analyze_document_structure d).document_stats.character_count =
        d.full_text.length ∧
      (analyze_document_structure d).metadata.extraction_method = "pdfplumber") ∧
    (∀ (rawPages : List RawPage) (f : FallbackResult), rawPages ≠ [] →
      (∀ pg ∈ rawPages, pg.extract_text.getD [] = []) →
      (process_single_pdf_extraction (PrimaryResult.ok rawPages) f).2 = 0 ∧
      (process_single_pdf_extraction (PrimaryResult.ok rawPages) f).1.full_text =
        List.replicate rawPages.length '\n') := by
  constructor
  · intro d hne hsp
    have hsplit : pySplit d.full_text = [] := pySplit_all_space _ hsp
    have hlines := pySplitNl_all_space _ hsp
    have h1 : (pySplitNl d.full_text).filterMap headSel = [] := by
      rw [List.filterMap_eq_nil_iff]
      intro l hl
      simp [headSel, pyStrip_all_space _ (hlines l hl)]
    have h2 : (pySplitNl d.full_text).filterMap paraSel = [] := by
      rw [List.filterMap_eq_nil_iff]
      intro l hl
      simp [paraSel, pyStrip_all_space _ (hlines l hl)]
    have hcl : classify_lines (pySplitNl d.full_text) = ([], []) := by
      rw [classify_lines_eq, h1, h2]
    refine ⟨?_, ?_, ?_, ?_, ?_, ?_⟩ <;>
      simp [analyze_document_structure, hne, hsplit, hcl]
  · intro rawPages f hne hall
    have htext : (extract_text_with_pdfplumber (PrimaryResult.ok rawPages)).full_text =
        List.replicate rawPages.length '\n' := by
      simp [extract_text_with_pdfplumber, buildPages_text_empty_pages 1 rawPages hall]
    have hne2 : (extract_text_with_pdfplumber (PrimaryResult.ok rawPages)).full_text ≠ [] := by
      cases rawPages with
      | nil => exact absurd rfl hne
      | cons a l => rw [htext]; simp
    constructor
    · simp [process_single_pdf_extraction, hne2, hne]
    · simp [process_single_pdf_extraction, hne2, htext, hne]

/-- C10 witness: one page with no extractable text gives `full_text = "\n"`,
no fallback call, zero words and the `"pdfplumber"` tag. -/
theorem C10_witness :
    (process_single_pdf_extraction
      (PrimaryResult.ok [{ extract_text := none, extract_tables := [] }])
      FallbackResult.exn).2 = 0 ∧
    (analyze_document_structure
      (process_single_pdf_extraction
        (PrimaryResult.ok [{ extract_text := none, extract_tables := [] }])
        FallbackResult.exn).1).document_stats.word_count = 0 ∧
    (analyze_document_structure
      (process_single_pdf_extraction
        (PrimaryResult.ok [{ extract_text := none, extract_tables := [] }])
        FallbackResult.exn).1).metadata.extraction_method = "pdfplumber" := by
  have h1 := C10_whitespace_only.1
    (process_single_pdf_extraction
      (PrimaryResult.ok [{ extract_text := none, extract_tables := [] }])
      FallbackResult.exn).1
    (by decide) (by decide)
  have h2 := C10_whitespace_only.2
    [{ extract_text := none, extract_tables := [] }] FallbackResult.exn
    (by decide) (by decide)
  exact ⟨h2.1, h1.1, h1.2.2.2.2.2⟩
